import Mathlib

/-!
Shallow embedding of the deal-context-bot core (`src/api/slack/utils.js`,
`src/api/slack/hubspot-data.js`, and the events handler) in Lean 4, together
with theorems settling the frozen claims about it.

Conventions used throughout:
* JS `undefined`/`null` string fields are modelled as `Option String`; JS
  truthiness of a string (`undefined`, `null` and `""` are falsy) is `jsTruthy`.
* The JS `Date` library is an environment parameter (`JsDateEnv`):
  `dateMs s` stands for `Number(new Date(s))` and `isoDay s` for
  `new Date(s).toISOString().split("T")[0]`.
* `Array.prototype.sort(cmp)` with a consistent comparator is, per ES2019, the
  unique stable sort for the induced order; it is modelled by the stable
  insertion sort `List.insertionSort`.
* The external Redis store is modelled as a function from keys to optional
  `(value, ttlSeconds)` pairs; `SET key v EX ttl` writes `(v, ttl)`.
  `JSON.stringify`/`JSON.parse` round-trip the stored record shapes exactly,
  so stored values are kept in structured form.
-/

namespace DealBot

/-- JS truthiness of an optional string: `undefined`/`null` and `""` are falsy. -/
def jsTruthy : Option String → Bool
  | none => false
  | some s => s != ""

/-- The string value of an optional string field (`undefined` reads as `""`,
which every use site below only does where JS would also yield `""`). -/
def jsStr : Option String → String
  | none => ""
  | some s => s

/-- JS `a || b` for an optional string `a` and a string default `b`. -/
def jsOr (a : Option String) (b : String) : String :=
  if jsTruthy a then jsStr a else b

/-- JS `(xs || [])` for an optional array. -/
def jsArr {α : Type} : Option (List α) → List α
  | none => []
  | some l => l

/-- `Array.prototype.join(sep)`. -/
def jsJoin (sep : String) : List String → String
  | [] => ""
  | [s] => s
  | s :: t :: r => s ++ sep ++ jsJoin sep (t :: r)

/-- The whitespace class used by the JS regexes/`trim` in this code base
(the bodies handled here only ever contain these whitespace characters). -/
def jsIsSpace (c : Char) : Bool :=
  c == ' ' || c == '\t' || c == '\n' || c == '\r'

/-- `String.prototype.trim()`. -/
def jsTrim (s : String) : String :=
  String.mk (((s.data.dropWhile jsIsSpace).reverse.dropWhile jsIsSpace).reverse)

/-- Helper for `.replace(/\s+/g, " ")`: the flag records whether the previous
character was whitespace (a maximal whitespace run becomes one space). -/
def collapseWsAux : Bool → List Char → List Char
  | _, [] => []
  | prevSp, c :: r =>
    if jsIsSpace c then
      if prevSp then collapseWsAux true r else ' ' :: collapseWsAux true r
    else c :: collapseWsAux false r

/-- `.replace(/\s+/g, " ")`. -/
def collapseWs (s : String) : String :=
  String.mk (collapseWsAux false s.data)

/-- `.replace(/<[^>]*>/g, "")`: every `<` that is followed (somewhere) by a `>`
opens a match that is removed through the first following `>`; a `<` with no
later `>` matches nothing and is kept. -/
def stripTagsAux : List Char → List Char
  | [] => []
  | c :: r =>
    if c == '<' && r.contains '>' then
      stripTagsAux (r.dropWhile (fun d => d != '>')).tail
    else c :: stripTagsAux r
termination_by l => l.length
decreasing_by
  · have h1 := (List.dropWhile_sublist (l := r) (fun d => d != '>')).length_le
    have h2 := List.length_tail (r.dropWhile (fun d => d != '>'))
    simp only [List.length_cons]
    omega
  · simp only [List.length_cons]
    omega

/-- `stripHtml` from `hubspot-data.js`. -/
def stripHtml (html : String) : String :=
  if html == "" then ""
  else ((((String.mk (stripTagsAux html.data)).replace "&nbsp;" " ").replace
    "&amp;" "&").replace "&lt;" "<").replace "&gt;" ">"

/-- `.substring(0, n)` on the strings this formatter builds (the bodies are
code-point strings; JS counts UTF-16 units, which agrees on the inputs
considered here). -/
def jsSubstring (s : String) (n : Nat) : String :=
  String.mk (s.data.take n)

/-- `Math.round(Number(d) / 1000 / 60)` rendered as a string, for the
decimal-integer millisecond strings HubSpot stores in `hs_call_duration`
(`Math.round(x) = floor(x + 1/2)` on non-negative input). -/
def jsRoundMinutes (s : String) : String :=
  match s.toNat? with
  | some n => toString ((n + 30000) / 60000)
  | none => "NaN"

/-- `Number(s)` for the decimal-integer strings this module itself writes into
Redis; a non-numeric string gives `NaN`, which behaves exactly like `0` at
every use site below (both are falsy and fail every comparison used). -/
def jsNum (s : String) : Nat :=
  (s.toNat?).getD 0

/-- The JS `Date` library, abstracted: `dateMs s = Number(new Date(s))`,
`isoDay s = new Date(s).toISOString().split("T")[0]`. -/
structure JsDateEnv where
  dateMs : String → Int
  isoDay : String → String

/-- The email record properties read by the timeline formatter
(`hs_email_status` is requested upstream but never read, and is omitted). -/
structure EmailProps where
  hs_email_subject : Option String := none
  hs_email_direction : Option String := none
  hs_email_text : Option String := none
  hs_email_html : Option String := none
  hs_timestamp : Option String := none
  hs_email_sender_email : Option String := none
  hs_email_to_email : Option String := none
deriving DecidableEq

structure Email where
  properties : Option EmailProps := none
deriving DecidableEq

structure CallProps where
  hs_call_title : Option String := none
  hs_call_body : Option String := none
  hs_call_direction : Option String := none
  hs_call_duration : Option String := none
  hs_call_disposition : Option String := none
  hs_timestamp : Option String := none
deriving DecidableEq

structure Call where
  properties : Option CallProps := none
deriving DecidableEq

structure MeetingProps where
  hs_meeting_title : Option String := none
  hs_meeting_body : Option String := none
  hs_meeting_outcome : Option String := none
  hs_timestamp : Option String := none
deriving DecidableEq

structure Meeting where
  properties : Option MeetingProps := none
deriving DecidableEq

structure NoteProps where
  hs_note_body : Option String := none
  hs_createdate : Option String := none
deriving DecidableEq

structure Note where
  properties : Option NoteProps := none
deriving DecidableEq

/-- One entry of the `items` array built by `formatTimelineForPrompt`. -/
structure TimelineItem where
  timestamp : String
  line : String
deriving DecidableEq

instance : Inhabited TimelineItem := ⟨⟨"", ""⟩⟩

/-- The email branch of `formatTimelineForPrompt` (hubspot-data.js). -/
def renderEmail (env : JsDateEnv) (e : Email) : TimelineItem :=
  let p := e.properties.getD {}
  let date := if jsTruthy p.hs_timestamp then env.isoDay (jsStr p.hs_timestamp)
    else "unknown date"
  let direction := if jsStr p.hs_email_direction == "INCOMING_EMAIL" then "Received"
    else "Sent"
  let subject := jsOr p.hs_email_subject "No subject"
  let fromAddr := jsStr p.hs_email_sender_email
  let toAddr := jsStr p.hs_email_to_email
  let body := jsTrim (collapseWs (if jsTruthy p.hs_email_text then jsStr p.hs_email_text
    else stripHtml (jsStr p.hs_email_html)))
  let snippet := if body != "" then ": " ++ jsSubstring body 200 else ""
  { timestamp := jsOr p.hs_timestamp "0",
    line := "- EMAIL (" ++ direction ++ ") on " ++ date ++ " — Subject: \"" ++ subject
      ++ "\"" ++ (if fromAddr != "" then " from " ++ fromAddr else "")
      ++ (if toAddr != "" then " to " ++ toAddr else "") ++ snippet }

/-- The call branch of `formatTimelineForPrompt`. -/
def renderCall (env : JsDateEnv) (c : Call) : TimelineItem :=
  let p := c.properties.getD {}
  let date := if jsTruthy p.hs_timestamp then env.isoDay (jsStr p.hs_timestamp)
    else "unknown date"
  let title := jsOr p.hs_call_title "Call"
  let direction := if jsStr p.hs_call_direction == "INBOUND" then "Inbound"
    else "Outbound"
  let duration := if jsTruthy p.hs_call_duration then
    jsRoundMinutes (jsStr p.hs_call_duration) ++ "min" else ""
  let disposition := jsStr p.hs_call_disposition
  let body := jsTrim (collapseWs (jsStr p.hs_call_body))
  let snippet := if body != "" then ": " ++ jsSubstring body 200 else ""
  { timestamp := jsOr p.hs_timestamp "0",
    line := "- CALL (" ++ direction ++ ") on " ++ date ++ " — " ++ title
      ++ (if duration != "" then ", " ++ duration else "")
      ++ (if disposition != "" then " [" ++ disposition ++ "]" else "") ++ snippet }

/-- The meeting branch of `formatTimelineForPrompt`. -/
def renderMeeting (env : JsDateEnv) (m : Meeting) : TimelineItem :=
  let p := m.properties.getD {}
  let date := if jsTruthy p.hs_timestamp then env.isoDay (jsStr p.hs_timestamp)
    else "unknown date"
  let title := jsOr p.hs_meeting_title "Meeting"
  let outcome := jsStr p.hs_meeting_outcome
  let body := jsTrim (collapseWs (jsStr p.hs_meeting_body))
  let snippet := if body != "" then ": " ++ jsSubstring (stripHtml body) 200 else ""
  { timestamp := jsOr p.hs_timestamp "0",
    line := "- MEETING on " ++ date ++ " — " ++ title
      ++ (if outcome != "" then " [" ++ outcome ++ "]" else "") ++ snippet }

/-- The note branch of `formatTimelineForPrompt`. -/
def renderNote (env : JsDateEnv) (n : Note) : TimelineItem :=
  let p := n.properties.getD {}
  let date := if jsTruthy p.hs_createdate then env.isoDay (jsStr p.hs_createdate)
    else "unknown date"
  let body := jsTrim (collapseWs (stripHtml (jsStr p.hs_note_body)))
  { timestamp := jsOr p.hs_createdate "0",
    line := "- NOTE on " ++ date ++ ": " ++ jsSubstring body 300 }

/-- The `items` array of `formatTimelineForPrompt` before sorting: the four
input collections (each possibly `null`) projected to `(timestamp, line)`. -/
def timelineItems (env : JsDateEnv) (emails : Option (List Email))
    (calls : Option (List Call)) (meetings : Option (List Meeting))
    (notes : Option (List Note)) : List TimelineItem :=
  ((jsArr emails).map (renderEmail env)) ++ ((jsArr calls).map (renderCall env))
    ++ ((jsArr meetings).map (renderMeeting env))
    ++ ((jsArr notes).map (renderNote env))

/-- `items.sort((a, b) => key(b) - key(a))`: ES2019 `Array.prototype.sort` with a
consistent comparator is the unique stable sort for the induced order, i.e.
stable insertion sort for the non-strict relation `key b ≤ key a`. -/
def sortDesc {α : Type} (key : α → Int) (l : List α) : List α :=
  List.insertionSort (fun a b => key b ≤ key a) l

/-- The sort key of `formatTimelineForPrompt`:
`Number(new Date(item.timestamp))`. -/
def itemKey (env : JsDateEnv) (i : TimelineItem) : Int :=
  env.dateMs i.timestamp

/-- The sorted `items` array of `formatTimelineForPrompt` (descending by
timestamp, stable). -/
def sortedTimeline (env : JsDateEnv) (emails : Option (List Email))
    (calls : Option (List Call)) (meetings : Option (List Meeting))
    (notes : Option (List Note)) : List TimelineItem :=
  sortDesc (itemKey env) (timelineItems env emails calls meetings notes)

/-- `formatTimelineForPrompt(emails, calls, meetings, notes)` from
hubspot-data.js: render, sort descending by timestamp, truncate to 40 items,
join with newlines; the no-activity sentinel on an empty union. -/
def formatTimelineForPrompt (env : JsDateEnv) (emails : Option (List Email))
    (calls : Option (List Call)) (meetings : Option (List Meeting))
    (notes : Option (List Note)) : String :=
  if (timelineItems env emails calls meetings notes).isEmpty then
    "No activity found in HubSpot."
  else
    jsJoin "\n" (((sortedTimeline env emails calls meetings notes).take 40).map
      TimelineItem.line)

/-- The deal properties requested by `findBestDeal` (utils.js). -/
structure DealProps where
  dealname : Option String := none
  createdate : Option String := none
  closedate : Option String := none
  dealstage : Option String := none
  pipeline : Option String := none
  hubspot_owner_id : Option String := none
deriving DecidableEq

structure Deal where
  id : String := ""
  properties : Option DealProps := none
deriving DecidableEq

/-- The sort key of `findBestDeal`:
`a.properties?.closedate ? Number(new Date(a.properties.closedate)) : 0`. -/
def closeKey (env : JsDateEnv) (d : Deal) : Int :=
  let p := d.properties.getD {}
  if jsTruthy p.closedate then env.dateMs (jsStr p.closedate) else 0

/-- `findBestDeal(hs, dealQuery)` from utils.js, applied to the `results` array
of the search response (`resp.data?.results || []`): returns `null` on an
empty result list, otherwise sorts descending by close date (missing close
date keyed as `0`) and returns the first element. -/
def findBestDeal (env : JsDateEnv) (results : List Deal) : Option Deal :=
  if results.isEmpty then none
  else (sortDesc (closeKey env) results).head?

/-- A CRM record returned by the batch-read endpoint; only its `id` matters to
the claims (the requested property payload is opaque here). -/
structure CrmRecord where
  id : String
deriving DecidableEq

/-- The upstream batch-read endpoint `POST /crm/v3/objects/:type/batch/read`:
a function from the requested id list to the returned records. -/
structure BatchUpstream where
  fetch : List String → List CrmRecord

/-- `batchRead(hs, objectType, ids, properties)` from utils.js, instrumented:
the first component is the list of upstream batch requests issued (one entry
per HTTP call, holding the ids of that call), the second the concatenated
results. The source issues no call for empty `ids`, and otherwise exactly one
call carrying `ids.slice(0, 50)`. -/
def batchRead (u : BatchUpstream) (ids : List String) :
    List (List String) × List CrmRecord :=
  if ids.isEmpty then ([], [])
  else ([ids.take 50], u.fetch (ids.take 50))

/-- `channelNameToDealQuery(channelName)` from utils.js: take
`channelName || ""`, replace every dash with a space (the global dash-to-space
regex replace), then `.trim()`. -/
def channelNameToDealQuery (channelName : Option String) : String :=
  jsTrim (String.mk ((jsOr channelName "").data.map
    (fun ch => if ch = '-' then ' ' else ch)))

/-- A Slack channel-history message, with the fields the history filter reads
(`none` stands for an absent/JS-`undefined` field; Slack never sends `null`
for these). -/
structure SlackMsg where
  subtype : Option String := none
  bot_id : Option String := none
  text : Option String := none
  user : Option String := none
  ts : Option String := none
deriving DecidableEq

/-- `isBotMessage(message)` from utils.js. -/
def isBotMessage (m : SlackMsg) : Bool :=
  m.subtype == some "bot" || m.subtype == some "bot_message" || m.bot_id != none

/-- The channel-history filter of `handleAppMention` (events handler):
`rawChannelHistory.filter((msg) => !isBotMessage(msg) && !msg.subtype && msg.text)`. -/
def filterChannelHistory (msgs : List SlackMsg) : List SlackMsg :=
  msgs.filter (fun m => !isBotMessage m && !jsTruthy m.subtype && jsTruthy m.text)

/-- The thread-context record `{messages, dealId, lastUpdated}` stored (JSON
encoded) in Redis, over an arbitrary message payload type. -/
structure ThreadContext (μ : Type) where
  messages : List μ
  dealId : String
  lastUpdated : Nat

/-- The external Redis store: keys to optional `(value, ttlSeconds)` entries
(an absent entry covers both never-written and TTL-expired keys). -/
def ThreadStore (μ : Type) : Type :=
  String → Option (ThreadContext μ × Nat)

/-- `redis.set(key, JSON.stringify(v), "EX", ttl)`. -/
def redisSetEx {μ : Type} (store : ThreadStore μ) (key : String)
    (v : ThreadContext μ) (ttl : Nat) : ThreadStore μ :=
  fun k => if k = key then some (v, ttl) else store k

/-- The key template of `storeThreadContext` (utils.js):
the template literal is repeated verbatim in each of the three functions. -/
def threadKeyStore (channel_id thread_ts : String) : String :=
  "slack:thread:" ++ channel_id ++ ":" ++ thread_ts

/-- The key template of `getThreadContext`. -/
def threadKeyGet (channel_id thread_ts : String) : String :=
  "slack:thread:" ++ channel_id ++ ":" ++ thread_ts

/-- The key template of `addMessageToThread`. -/
def threadKeyAdd (channel_id thread_ts : String) : String :=
  "slack:thread:" ++ channel_id ++ ":" ++ thread_ts

/-- `storeThreadContext(channel_id, thread_ts, messages, dealId)` from
utils.js: writes `{messages, dealId, lastUpdated: Date.now()}` with a
24-hour TTL. -/
def storeThreadContext {μ : Type} (store : ThreadStore μ)
    (channel_id thread_ts : String) (messages : List μ) (dealId : String)
    (now : Nat) : ThreadStore μ :=
  redisSetEx store (threadKeyStore channel_id thread_ts)
    { messages := messages, dealId := dealId, lastUpdated := now } 86400

/-- `getThreadContext(channel_id, thread_ts)` from utils.js. -/
def getThreadContext {μ : Type} (store : ThreadStore μ)
    (channel_id thread_ts : String) : Option (ThreadContext μ) :=
  (store (threadKeyGet channel_id thread_ts)).map Prod.fst

/-- `addMessageToThread(channel_id, thread_ts, message)` from utils.js:
returns `null` leaving the store untouched when no context exists, otherwise
pushes the message, stamps `lastUpdated`, and re-writes the key with a fresh
24-hour TTL; returns the updated context and store. -/
def addMessageToThread {μ : Type} (store : ThreadStore μ)
    (channel_id thread_ts : String) (message : μ) (now : Nat) :
    Option (ThreadContext μ) × ThreadStore μ :=
  match getThreadContext store channel_id thread_ts with
  | none => (none, store)
  | some context =>
    let context2 : ThreadContext μ :=
      { messages := context.messages ++ [message], dealId := context.dealId,
        lastUpdated := now }
    (some context2,
      redisSetEx store (threadKeyAdd channel_id thread_ts) context2 86400)

/-- Outcome of a credential-cache `getToken()` call. `notConnected` stands for
the thrown `"HubSpot not connected: missing refresh token in Redis"` /
`"No Slack bot token (install app or set SLACK_BOT_TOKEN)"` errors;
`refreshFailed` for a propagated refresh-exchange rejection (HubSpot) or the
thrown `"Slack token expired and refresh failed; ..."` error. -/
inductive TokenOutcome where
  | token (t : String)
  | notConnected
  | refreshFailed
deriving DecidableEq

/-- The three HubSpot credential keys in Redis (string-valued, as stored). -/
structure HubSpotStore where
  access_token : Option String := none
  refresh_token : Option String := none
  expires_at_ms : Option String := none
deriving DecidableEq

/-- The body of a successful HubSpot refresh exchange
(`data.access_token`, `data.expires_in`). -/
structure HubSpotRefreshData where
  access_token : String := ""
  expires_in : Option Nat := none
deriving DecidableEq

/-- `expiresAtMsStr ? Number(expiresAtMsStr) : 0` — the parsed stored expiry. -/
def storedExpiryMs (o : Option String) : Nat :=
  if jsTruthy o then jsNum (jsStr o) else 0

def HUBSPOT_REFRESH_BUFFER_MS : Nat := 60 * 1000

def SLACK_REFRESH_BUFFER_MS : Nat := 60 * 60 * 1000

/-- `getHubSpotAccessToken()` from utils.js. `now` is `Date.now()`;
`exchange` is the outcome of the refresh POST to the upstream token endpoint
(`.error` = upstream rejected / request failed, which the source does not
catch and therefore propagates). Returns the outcome and the store after any
writes. -/
def getHubSpotAccessToken (store : HubSpotStore) (now : Nat)
    (exchange : Except Unit HubSpotRefreshData) : TokenOutcome × HubSpotStore :=
  let access := store.access_token
  let refresh := store.refresh_token
  let expiresAtMs := storedExpiryMs store.expires_at_ms
  if !jsTruthy refresh then (.notConnected, store)
  else if jsTruthy access && (expiresAtMs != 0)
      && decide (now < expiresAtMs - HUBSPOT_REFRESH_BUFFER_MS) then
    (.token (jsStr access), store)
  else
    match exchange with
    | .error _ => (.refreshFailed, store)
    | .ok data =>
      let newAccess := data.access_token
      let expiresIn := data.expires_in.getD 0
      let newExpiresAt := now + expiresIn * 1000
      (.token newAccess,
        { store with access_token := some newAccess,
                     expires_at_ms := some (toString newExpiresAt) })

/-- The three Slack credential keys in Redis. -/
structure SlackStore where
  access_token : Option String := none
  refresh_token : Option String := none
  expires_at_ms : Option String := none
deriving DecidableEq

/-- The parsed body of the Slack `oauth.v2.access` refresh response. -/
structure SlackRefreshResp where
  ok : Bool := false
  access_token : String := ""
  refresh_token : Option String := none
  expires_in : Option Nat := none
deriving DecidableEq

/-- The inner refresh block of `getSlackBotToken` (the `if (refresh)` body):
`some result` when it returns early with a fresh token, `none` when it falls
through (no refresh token, missing client credentials, the axios call threw
and was caught, or `resp.data.ok` was false). -/
def slackRefreshAttempt (store : SlackStore) (now : Nat)
    (clientId clientSecret : Option String)
    (exchange : Except Unit SlackRefreshResp) :
    Option (TokenOutcome × SlackStore) :=
  if jsTruthy store.refresh_token && jsTruthy clientId && jsTruthy clientSecret then
    match exchange with
    | .ok data =>
      if data.ok then
        let newAccess := data.access_token
        let expiresIn := data.expires_in.getD 43200
        let newExpiresAt := now + expiresIn * 1000
        some (.token newAccess,
          { access_token := some newAccess,
            expires_at_ms := some (toString newExpiresAt),
            refresh_token := if jsTruthy data.refresh_token then
              data.refresh_token else store.refresh_token })
      else none
    | .error _ => none
  else none

/-- The tail of `getSlackBotToken` after the refresh block fell through:
`isExpired` check, then throw `notConnected` / `refreshFailed` or return the
(possibly stale) stored access token. -/
def slackTokenFallback (store : SlackStore) (now : Nat) (expiresAtMs : Nat) :
    TokenOutcome × SlackStore :=
  let isExpired := (expiresAtMs != 0)
    && decide (expiresAtMs - SLACK_REFRESH_BUFFER_MS ≤ now)
  if !jsTruthy store.access_token then (.notConnected, store)
  else if isExpired then (.refreshFailed, store)
  else (.token (jsStr store.access_token), store)

/-- `getSlackBotToken()` from utils.js. `envToken` is
`process.env.SLACK_BOT_TOKEN || null`; `clientId`/`clientSecret` the Slack
client env vars; `exchange` the refresh POST outcome (`.error` = the axios
call threw, which the source catches and falls through). Redis transport
errors are outside this model (the store is given). Returns the outcome and
the store after any writes. -/
def getSlackBotToken (envToken : Option String) (store : SlackStore) (now : Nat)
    (clientId clientSecret : Option String)
    (exchange : Except Unit SlackRefreshResp) : TokenOutcome × SlackStore :=
  if jsTruthy envToken then (.token (jsStr envToken), store)
  else
    let expiresAtMs := storedExpiryMs store.expires_at_ms
    if jsTruthy store.access_token && (expiresAtMs != 0)
        && decide (now < expiresAtMs - SLACK_REFRESH_BUFFER_MS) then
      (.token (jsStr store.access_token), store)
    else
      match slackRefreshAttempt store now clientId clientSecret exchange with
      | some r => r
      | none => slackTokenFallback store now expiresAtMs

/-! ## Concrete instances used by witnesses and counterexamples -/

/-- 120 distinct ids, as in the spec scenario `idsOfLength120`. -/
def ids120 : List String := (List.range 120).map toString

/-- A well-behaved batch endpoint: returns one record per requested id. -/
def echoUpstream : BatchUpstream :=
  { fetch := fun reqIds => reqIds.map (fun i => { id := i }) }

/-- A credential state with a stored access token but no stored expiry and no
refresh token (e.g. seeded directly, or after a partial write). -/
def slackStaleStore : SlackStore := { access_token := some "xoxb-stale" }

/-- A credential state holding only a refresh token. -/
def hubRefreshOnly : HubSpotStore := { refresh_token := some "r1" }

/-- Decimal value of a digit string (kernel-computable parser used only by
the concrete `Date` environments below). -/
def decimalNat : List Char → Nat → Nat
  | [], acc => acc
  | c :: r, acc => decimalNat r (acc * 10 + (c.toNat - 48))

/-- A concrete `Date` environment: parses the decimal strings used in the
concrete records below (and `"0"` to epoch `0`). -/
def envNum : JsDateEnv :=
  { dateMs := fun s => (decimalNat s.data 0 : Int), isoDay := fun s => s }

def emailTieA : Email :=
  { properties := some { hs_email_subject := some "A", hs_timestamp := some "100" } }

def emailTieB : Email :=
  { properties := some { hs_email_subject := some "B", hs_timestamp := some "100" } }

def emailW1 : Email :=
  { properties := some { hs_email_subject := some "A", hs_timestamp := some "100" } }

def emailW2 : Email :=
  { properties := some { hs_email_subject := some "B", hs_timestamp := some "200" } }

/-- An email with no `hs_timestamp` (projected timestamp `"0"`). -/
def emailNoTs : Email :=
  { properties := some { hs_email_subject := some "x" } }

/-- The actual JS runtime's `Date` parses, modelled concretely: V8 subjects
the bare string `"0"` to two-digit-year windowing, so
`Number(new Date("0"))` is `946684800000` (2000-01-01T00:00:00Z) — not epoch
`0`; the two ISO dates parse to their UTC-midnight millisecond values. -/
def env2000 : JsDateEnv :=
  { dateMs := fun s =>
      if s == "0" then 946684800000
      else if s == "1999-06-01" then 928195200000
      else if s == "2024-03-15" then 1710460800000
      else 0,
    isoDay := fun _ => "" }

/-- A note created strictly after the Unix epoch but before 2000. -/
def note1999 : Note :=
  { properties := some { hs_createdate := some "1999-06-01" } }

/-- A note created after 2000 (parses above `Date("0")`). -/
def note2024 : Note :=
  { properties := some { hs_createdate := some "2024-03-15" } }

/-- A `Date` environment for the two concrete close dates of the spec
scenario (March parses strictly later than January). -/
def envClose : JsDateEnv :=
  { dateMs := fun s =>
      if s == "2024-03-15" then 1710460800000
      else if s == "2024-01-01" then 1704067200000
      else 0,
    isoDay := fun _ => "" }

def dealJan : Deal :=
  { id := "1", properties := some { closedate := some "2024-01-01" } }

def dealMar : Deal :=
  { id := "2", properties := some { closedate := some "2024-03-15" } }

/-- A thread store with no entries. -/
def emptyTS : ThreadStore String := fun _ => none

def goodMsg : SlackMsg :=
  { text := some "hello", user := some "U1", ts := some "1.0" }

def botMsg : SlackMsg :=
  { text := some "hi", bot_id := some "B1" }

/-! ## Helper lemmas -/

theorem sortDesc_perm {α : Type} (key : α → Int) (l : List α) :
    (sortDesc key l).Perm l :=
  List.perm_insertionSort _ l

theorem sortDesc_sorted {α : Type} (key : α → Int) (l : List α) :
    List.Pairwise (fun a b => key b ≤ key a) (sortDesc key l) := by
  haveI : IsTotal α (fun a b => key b ≤ key a) :=
    ⟨fun a b => (le_total (key b) (key a))⟩
  haveI : IsTrans α (fun a b => key b ≤ key a) :=
    ⟨fun _ _ _ h1 h2 => le_trans h2 h1⟩
  exact List.sorted_insertionSort _ l

/-- A stable sort is determined by the input multiset once all keys are
distinct: permuted inputs with duplicate-free keys sort identically. -/
theorem sortDesc_eq_of_perm {α : Type} (key : α → Int) {l1 l2 : List α}
    (p : l1.Perm l2) (nd : (l1.map key).Nodup) :
    sortDesc key l1 = sortDesc key l2 := by
  have p1 : (sortDesc key l1).Perm (sortDesc key l2) :=
    ((sortDesc_perm key l1).trans p).trans (sortDesc_perm key l2).symm
  have nd1 : ((sortDesc key l1).map key).Nodup :=
    (((sortDesc_perm key l1).map key).symm).nodup nd
  have nd2 : ((sortDesc key l2).map key).Nodup :=
    ((p1.map key)).nodup nd1
  have ne1 : List.Pairwise (fun a b => key a ≠ key b) (sortDesc key l1) :=
    (List.pairwise_map).mp nd1
  have ne2 : List.Pairwise (fun a b => key a ≠ key b) (sortDesc key l2) :=
    (List.pairwise_map).mp nd2
  have strict1 : List.Pairwise (fun a b => key b < key a) (sortDesc key l1) :=
    ((sortDesc_sorted key l1).and ne1).imp
      (fun h => lt_of_le_of_ne h.1 (Ne.symm h.2))
  have strict2 : List.Pairwise (fun a b => key b < key a) (sortDesc key l2) :=
    ((sortDesc_sorted key l2).and ne2).imp
      (fun h => lt_of_le_of_ne h.1 (Ne.symm h.2))
  haveI : IsAntisymm α (fun a b => key b < key a) :=
    ⟨fun _ _ h1 h2 => absurd (lt_trans h1 h2) (lt_irrefl _)⟩
  exact List.eq_of_perm_of_sorted p1 strict1 strict2

theorem jsJoin_length_le (sep s : String) (rest : List String) :
    s.length ≤ (jsJoin sep (s :: rest)).length := by
  cases rest with
  | nil => exact le_refl _
  | cons t r =>
    show s.length ≤ (s ++ sep ++ jsJoin sep (t :: r)).length
    rw [String.length_append, String.length_append]
    omega

theorem str_append_pos (s t : String) (h : 0 < s.length) :
    0 < (s ++ t).length := by
  rw [String.length_append]; omega

theorem renderEmail_line_pos (env : JsDateEnv) (e : Email) :
    0 < (renderEmail env e).line.length := by
  simp only [renderEmail]
  repeat apply str_append_pos
  decide

theorem renderCall_line_pos (env : JsDateEnv) (c : Call) :
    0 < (renderCall env c).line.length := by
  simp only [renderCall]
  repeat apply str_append_pos
  decide

theorem renderMeeting_line_pos (env : JsDateEnv) (m : Meeting) :
    0 < (renderMeeting env m).line.length := by
  simp only [renderMeeting]
  repeat apply str_append_pos
  decide

theorem renderNote_line_pos (env : JsDateEnv) (n : Note) :
    0 < (renderNote env n).line.length := by
  simp only [renderNote]
  repeat apply str_append_pos
  decide

theorem timelineItems_line_pos (env : JsDateEnv) (e : Option (List Email))
    (c : Option (List Call)) (m : Option (List Meeting))
    (n : Option (List Note)) :
    ∀ it ∈ timelineItems env e c m n, 0 < it.line.length := by
  intro it hit
  simp only [timelineItems, List.mem_append, List.mem_map] at hit
  rcases hit with (((⟨x, -, rfl⟩ | ⟨x, -, rfl⟩) | ⟨x, -, rfl⟩) | ⟨x, -, rfl⟩)
  · exact renderEmail_line_pos env x
  · exact renderCall_line_pos env x
  · exact renderMeeting_line_pos env x
  · exact renderNote_line_pos env x

theorem jsOr_some_empty (s : String) : jsOr (some s) "" = s := by
  by_cases h : s = "" <;> simp [jsOr, jsTruthy, jsStr, h]

theorem contains_eq_false_of_forall_ne {l : List Char} {a : Char}
    (h : ∀ ch ∈ l, ch ≠ a) : l.contains a = false := by
  induction l with
  | nil => rfl
  | cons b r ih =>
    have hb : ¬(a == b) = true := by
      simp only [beq_iff_eq]
      exact fun hab => h b (List.mem_cons_self b r) hab.symm
    simp only [List.contains_cons, Bool.or_eq_false_iff]
    exact ⟨by simpa using hb, ih (fun ch hch => h ch (List.mem_cons_of_mem b hch))⟩

/-- Splitting at an unambiguous separator: if neither left part contains the
separator character, the concatenations agree only when the parts agree. -/
theorem colon_append_inj {c1 t1 c2 t2 : List Char}
    (h1 : ':' ∉ c1) (h2 : ':' ∉ c2)
    (h : c1 ++ ':' :: t1 = c2 ++ ':' :: t2) : c1 = c2 ∧ t1 = t2 := by
  induction c1 generalizing c2 with
  | nil =>
    cases c2 with
    | nil => simpa using h
    | cons b r2 =>
      exfalso
      simp only [List.nil_append, List.cons_append, List.cons.injEq] at h
      exact h2 (h.1 ▸ List.mem_cons_self b r2)
  | cons a r1 ih =>
    cases c2 with
    | nil =>
      exfalso
      simp only [List.cons_append, List.nil_append, List.cons.injEq] at h
      exact h1 (h.1 ▸ List.mem_cons_self a r1)
    | cons b r2 =>
      simp only [List.cons_append, List.cons.injEq] at h
      have h1' : ':' ∉ r1 := fun hm => h1 (List.mem_cons_of_mem a hm)
      have h2' : ':' ∉ r2 := fun hm => h2 (List.mem_cons_of_mem b hm)
      obtain ⟨hc, ht⟩ := ih h1' h2' h.2
      exact ⟨by rw [h.1, hc], ht⟩

/-- Exhaustive outcome analysis of `getHubSpotAccessToken`. -/
theorem hubspotToken_cases (store : HubSpotStore) (now : Nat)
    (ex : Except Unit HubSpotRefreshData) :
    getHubSpotAccessToken store now ex = (TokenOutcome.notConnected, store)
    ∨ (getHubSpotAccessToken store now ex
          = (TokenOutcome.token (jsStr store.access_token), store)
        ∧ now + HUBSPOT_REFRESH_BUFFER_MS < storedExpiryMs store.expires_at_ms)
    ∨ getHubSpotAccessToken store now ex = (TokenOutcome.refreshFailed, store)
    ∨ (∃ data, ex = .ok data ∧ getHubSpotAccessToken store now ex
        = (TokenOutcome.token data.access_token,
          ({ store with
            access_token := some data.access_token
            expires_at_ms :=
              some (toString (now + (data.expires_in.getD 0) * 1000)) }
            : HubSpotStore))) := by
  simp only [getHubSpotAccessToken]
  split
  · exact Or.inl rfl
  · split
    · rename_i hc
      right; left
      refine ⟨rfl, ?_⟩
      simp only [Bool.and_eq_true, decide_eq_true_eq, bne_iff_ne, ne_eq] at hc
      omega
    · cases ex with
      | error u => exact Or.inr (Or.inr (Or.inl rfl))
      | ok data => exact Or.inr (Or.inr (Or.inr ⟨data, rfl, rfl⟩))

/-- Exhaustive outcome analysis of `getSlackBotToken`. -/
theorem slackToken_cases (envToken : Option String) (store : SlackStore)
    (now : Nat) (clientId clientSecret : Option String)
    (ex : Except Unit SlackRefreshResp) :
    (jsTruthy envToken = true
      ∧ getSlackBotToken envToken store now clientId clientSecret ex
          = (TokenOutcome.token (jsStr envToken), store))
    ∨ (getSlackBotToken envToken store now clientId clientSecret ex
          = (TokenOutcome.token (jsStr store.access_token), store)
        ∧ now + SLACK_REFRESH_BUFFER_MS < storedExpiryMs store.expires_at_ms)
    ∨ (∃ data, ex = .ok data ∧ data.ok = true
        ∧ getSlackBotToken envToken store now clientId clientSecret ex
          = (TokenOutcome.token data.access_token,
            ({
              access_token := some data.access_token
              expires_at_ms :=
                some (toString (now + (data.expires_in.getD 43200) * 1000))
              refresh_token := if jsTruthy data.refresh_token then
                data.refresh_token else store.refresh_token } : SlackStore)))
    ∨ getSlackBotToken envToken store now clientId clientSecret ex
        = (TokenOutcome.notConnected, store)
    ∨ getSlackBotToken envToken store now clientId clientSecret ex
        = (TokenOutcome.refreshFailed, store)
    ∨ (getSlackBotToken envToken store now clientId clientSecret ex
          = (TokenOutcome.token (jsStr store.access_token), store)
        ∧ storedExpiryMs store.expires_at_ms = 0) := by
  simp only [getSlackBotToken]
  split
  · rename_i he
    exact Or.inl ⟨he, rfl⟩
  · split
    · rename_i he hc
      right; left
      refine ⟨rfl, ?_⟩
      simp only [Bool.and_eq_true, decide_eq_true_eq, bne_iff_ne, ne_eq] at hc
      omega
    · rename_i he hcache
      rcases hatt : slackRefreshAttempt store now clientId clientSecret ex
        with _ | r
      · simp only [hatt]
        simp only [slackTokenFallback]
        split
        · right; right; right; left; rfl
        · split
          · right; right; right; right; left; rfl
          · rename_i hacc hexp
            right; right; right; right; right
            refine ⟨rfl, ?_⟩
            have hacc' : jsTruthy store.access_token = true := by
              simpa using hacc
            by_contra hne
            have h1 : (storedExpiryMs store.expires_at_ms != 0) = true := by
              simpa using hne
            have h2 : ¬(storedExpiryMs store.expires_at_ms
                - SLACK_REFRESH_BUFFER_MS ≤ now) := by
              intro hle
              exact hexp (by simp [h1, hle])
            exact hcache (by
              simp only [hacc', h1, Bool.true_and, decide_eq_true_eq]
              omega)
      · simp only [hatt]
        rw [slackRefreshAttempt.eq_def] at hatt
        by_cases hcred : (jsTruthy store.refresh_token && jsTruthy clientId
            && jsTruthy clientSecret) = true
        · rw [if_pos hcred] at hatt
          cases ex with
          | error u => exact absurd hatt (by simp)
          | ok data =>
            dsimp only at hatt
            by_cases hok : data.ok = true
            · rw [if_pos hok] at hatt
              obtain rfl := Option.some.inj hatt
              exact Or.inr (Or.inr (Or.inl ⟨data, rfl, hok, rfl⟩))
            · rw [if_neg hok] at hatt
              exact absurd hatt (by simp)
        · rw [if_neg hcred] at hatt
          exact absurd hatt (by simp)

/-! ## Claims -/

/-- C2 counterexample: two further outcomes are possible. (1) Slack: with a
stored access token, no stored expiry, and no refresh token, `getToken()`
returns the stored token even though no stored expiry exceeds
`now + refreshBufferMs` (there is none at all), and throws nothing.
(2) HubSpot: a refresh accepted by the upstream with `expires_in = 0` returns
a token whose freshly stored expiry equals `now`, which is not strictly
greater than `now + refreshBufferMs`. -/
theorem C2_counterexample :
    (getSlackBotToken none slackStaleStore 1000000 none none (.error ())).1
        = TokenOutcome.token "xoxb-stale" ∧
    slackStaleStore.expires_at_ms = none ∧
    (getHubSpotAccessToken hubRefreshOnly 1000000
        (.ok { access_token := "fresh", expires_in := some 0 })).1
        = TokenOutcome.token "fresh" ∧
    (getHubSpotAccessToken hubRefreshOnly 1000000
        (.ok { access_token := "fresh", expires_in := some 0 })).2.expires_at_ms
        = some "1000000" ∧
    ¬(1000000 + HUBSPOT_REFRESH_BUFFER_MS < 1000000) :=
  ⟨by decide, rfl, by decide, by decide, by decide⟩

/-- C2 (amended): for all credential states, `getToken()` either (i) returns
the cached access token with the stored expiry strictly greater than
`now + refreshBufferMs`, (ii) returns a freshly refreshed token whose newly
stored expiry is `now + expires_in · 1000` as reported by the upstream — not
re-checked against the buffer — (iii) throws `NotConnected`, (iv) throws
`RefreshFailed`, or (v) — Slack variant only — returns the environment token,
or the stored access token with no expiry guarantee when the stored expiry is
absent/unparsable and no refresh succeeded; no other outcome is possible. -/
theorem C2_theorem :
    (∀ (store : HubSpotStore) (now : Nat) (ex : Except Unit HubSpotRefreshData),
      getHubSpotAccessToken store now ex = (TokenOutcome.notConnected, store)
      ∨ (getHubSpotAccessToken store now ex
            = (TokenOutcome.token (jsStr store.access_token), store)
          ∧ now + HUBSPOT_REFRESH_BUFFER_MS < storedExpiryMs store.expires_at_ms)
      ∨ getHubSpotAccessToken store now ex = (TokenOutcome.refreshFailed, store)
      ∨ (∃ data, ex = .ok data ∧ getHubSpotAccessToken store now ex
          = (TokenOutcome.token data.access_token,
            ({ store with
              access_token := some data.access_token
              expires_at_ms :=
                some (toString (now + (data.expires_in.getD 0) * 1000)) }
              : HubSpotStore)))) ∧
    (∀ (envToken : Option String) (store : SlackStore) (now : Nat)
        (clientId clientSecret : Option String)
        (ex : Except Unit SlackRefreshResp),
      (jsTruthy envToken = true
        ∧ getSlackBotToken envToken store now clientId clientSecret ex
            = (TokenOutcome.token (jsStr envToken), store))
      ∨ (getSlackBotToken envToken store now clientId clientSecret ex
            = (TokenOutcome.token (jsStr store.access_token), store)
          ∧ now + SLACK_REFRESH_BUFFER_MS < storedExpiryMs store.expires_at_ms)
      ∨ (∃ data, ex = .ok data ∧ data.ok = true
          ∧ getSlackBotToken envToken store now clientId clientSecret ex
            = (TokenOutcome.token data.access_token,
              ({
                access_token := some data.access_token
                expires_at_ms :=
                  some (toString (now + (data.expires_in.getD 43200) * 1000))
                refresh_token := if jsTruthy data.refresh_token then
                  data.refresh_token else store.refresh_token } : SlackStore)))
      ∨ getSlackBotToken envToken store now clientId clientSecret ex
          = (TokenOutcome.notConnected, store)
      ∨ getSlackBotToken envToken store now clientId clientSecret ex
          = (TokenOutcome.refreshFailed, store)
      ∨ (getSlackBotToken envToken store now clientId clientSecret ex
            = (TokenOutcome.token (jsStr store.access_token), store)
          ∧ storedExpiryMs store.expires_at_ms = 0)) :=
  ⟨fun store now ex => hubspotToken_cases store now ex,
    fun envToken store now cid csec ex =>
      slackToken_cases envToken store now cid csec ex⟩

/-- C9: `channelNameToDealQuery` is total on null/undefined input (returning
the empty string) and otherwise returns the channel name with every dash
replaced by a single space and leading/trailing whitespace trimmed;
consequently the derived deal search query never contains a `-` character. -/
theorem C9_theorem :
    channelNameToDealQuery none = "" ∧
    ∀ s : String, (channelNameToDealQuery (some s)).data.contains '-' = false := by
  constructor
  · rfl
  · intro s
    apply contains_eq_false_of_forall_ne
    intro ch hch
    have hch2 : ch ∈ (jsOr (some s) "").data.map
        (fun c => if c = '-' then ' ' else c) := by
      have step1 := (List.dropWhile_sublist (l :=
        ((jsOr (some s) "").data.map (fun c => if c = '-' then ' ' else c)))
        jsIsSpace).subset
      have step2 := (List.dropWhile_sublist (l :=
        (((jsOr (some s) "").data.map (fun c => if c = '-' then ' ' else c)).dropWhile
          jsIsSpace).reverse) jsIsSpace).subset
      simp only [channelNameToDealQuery, jsTrim, List.mem_reverse] at hch
      exact step1 (List.mem_reverse.mp (step2 hch))
    obtain ⟨c0, -, hc0⟩ := List.mem_map.mp hch2
    intro hdash
    rw [hdash] at hc0
    by_cases h0 : c0 = '-'
    · rw [if_pos h0] at hc0
      exact absurd hc0 (by decide)
    · rw [if_neg h0] at hc0
      exact h0 hc0

/-- C10: every message retained by the channel-history filter that the
orchestrator hands to prompt building is a non-bot message (`isBotMessage`
is false, so its subtype is neither `"bot"` nor `"bot_message"` and its
`bot_id` is undefined), has no subtype (the JS truthiness test `!msg.subtype`
conflates an absent subtype with the empty string, which Slack never sends),
and has non-empty text. -/
theorem C10_theorem (msgs : List SlackMsg) (m : SlackMsg)
    (h : m ∈ filterChannelHistory msgs) :
    isBotMessage m = false ∧ m.bot_id = none ∧
    (m.subtype = none ∨ m.subtype = some "") ∧ jsTruthy m.text = true := by
  obtain ⟨-, hp⟩ := List.mem_filter.mp h
  simp only [Bool.and_eq_true, Bool.not_eq_true'] at hp
  obtain ⟨⟨hbot, hsub⟩, htext⟩ := hp
  refine ⟨hbot, ?_, ?_, htext⟩
  · have := hbot
    simp only [isBotMessage, Bool.or_eq_false_iff, bne_eq_false_iff_eq] at this
    exact this.2
  · cases hs : m.subtype with
    | none => exact Or.inl rfl
    | some s =>
      right
      rw [hs] at hsub
      simp only [jsTruthy, bne_eq_false_iff_eq] at hsub
      rw [hsub]

/-- C10 witness: a concrete history containing a bot message and a plain user
message; the retained message satisfies all retained-message properties. -/
theorem C10_witness :
    goodMsg ∈ filterChannelHistory [botMsg, goodMsg] ∧
    (isBotMessage goodMsg = false ∧ goodMsg.bot_id = none ∧
      (goodMsg.subtype = none ∨ goodMsg.subtype = some "") ∧
      jsTruthy goodMsg.text = true) :=
  ⟨by decide, C10_theorem [botMsg, goodMsg] goodMsg (by decide)⟩

/-- C7: `addMessageToThread` on a key with no existing context returns null
and performs no write (the store is returned unchanged); after a
`storeThreadContext` for that key, a single append returns a context with
exactly one more message and re-writes the key with a fresh 24-hour TTL
(`EX 86400`). -/
theorem C7_theorem {μ : Type} (store0 store : ThreadStore μ)
    (channel_id thread_ts dealId : String) (msgs : List μ) (msg : μ)
    (now1 now2 : Nat)
    (h : getThreadContext store0 channel_id thread_ts = none) :
    addMessageToThread store0 channel_id thread_ts msg now2 = (none, store0) ∧
    ∃ ctx2 : ThreadContext μ,
      (addMessageToThread (storeThreadContext store channel_id thread_ts msgs
        dealId now1) channel_id thread_ts msg now2).1 = some ctx2 ∧
      ctx2.messages.length = msgs.length + 1 ∧
      (addMessageToThread (storeThreadContext store channel_id thread_ts msgs
        dealId now1) channel_id thread_ts msg now2).2
        (threadKeyAdd channel_id thread_ts) = some (ctx2, 86400) := by
  constructor
  · simp only [addMessageToThread, h]
  · have hget : getThreadContext (storeThreadContext store channel_id thread_ts
        msgs dealId now1) channel_id thread_ts
        = some { messages := msgs, dealId := dealId, lastUpdated := now1 } := by
      simp [getThreadContext, storeThreadContext, redisSetEx, threadKeyGet,
        threadKeyStore]
    refine ⟨{ messages := msgs ++ [msg], dealId := dealId, lastUpdated := now2 },
      ?_, ?_, ?_⟩
    · simp only [addMessageToThread, hget]
    · simp
    · simp only [addMessageToThread, hget, redisSetEx, if_pos]

/-- C7 witness: concrete channel, thread, and messages over an initially
empty store. -/
theorem C7_witness :
    getThreadContext emptyTS "C01" "1700000000.000100" = none ∧
    (addMessageToThread emptyTS "C01" "1700000000.000100" "m2" 9
        = (none, emptyTS) ∧
      ∃ ctx2 : ThreadContext String,
        (addMessageToThread (storeThreadContext emptyTS "C01"
          "1700000000.000100" ["m1"] "D7" 5) "C01" "1700000000.000100" "m2"
          9).1 = some ctx2 ∧
        ctx2.messages.length = ["m1"].length + 1 ∧
        (addMessageToThread (storeThreadContext emptyTS "C01"
          "1700000000.000100" ["m1"] "D7" 5) "C01" "1700000000.000100" "m2"
          9).2 (threadKeyAdd "C01" "1700000000.000100")
          = some (ctx2, 86400)) :=
  ⟨rfl, C7_theorem emptyTS emptyTS "C01" "1700000000.000100" "D7" ["m1"] "m2"
    5 9 rfl⟩

/-- C8 counterexample: the stored key carries the `slack:` prefix, so it is
not `"thread:" + channelId + ":" + threadId` as claimed; moreover the raw
composition is not collision-free over arbitrary strings, since a `:` inside
the channel id can shift the boundary. -/
theorem C8_counterexample :
    threadKeyStore "C1" "T1" = "slack:thread:C1:T1" ∧
    "slack:thread:C1:T1" ≠ "thread:C1:T1" ∧
    threadKeyStore "a:b" "c" = threadKeyStore "a" "b:c" := by
  refine ⟨by decide, by decide, by decide⟩

/-- C8 (amended): thread-context entries are stored under
`"slack:thread:" + channelId + ":" + threadId`; `get`, `put` and `append`
compose the very same key for the same pair, and the composition is
collision-free for channel ids that contain no `:` (Slack channel ids never
do): distinct such `(channelId, threadId)` pairs map to distinct keys. -/
theorem C8_theorem (c1 t1 c2 t2 : String)
    (h1 : ':' ∉ c1.data) (h2 : ':' ∉ c2.data) :
    threadKeyStore c1 t1 = "slack:thread:" ++ c1 ++ ":" ++ t1 ∧
    threadKeyGet c1 t1 = threadKeyStore c1 t1 ∧
    threadKeyAdd c1 t1 = threadKeyStore c1 t1 ∧
    (threadKeyStore c1 t1 = threadKeyStore c2 t2 → c1 = c2 ∧ t1 = t2) := by
  refine ⟨rfl, rfl, rfl, fun h => ?_⟩
  have hd := congrArg String.data h
  simp only [threadKeyStore, String.data_append, List.append_assoc] at hd
  have hd2 := List.append_cancel_left hd
  have hd3 : c1.data ++ ':' :: t1.data = c2.data ++ ':' :: t2.data := by
    simpa using hd2
  obtain ⟨hc, ht⟩ := colon_append_inj h1 h2 hd3
  exact ⟨String.ext hc, String.ext ht⟩

/-- C8 witness: two concrete colon-free channel ids with thread timestamps. -/
theorem C8_witness :
    (':' ∉ ("CA11" : String).data) ∧ (':' ∉ ("CB22" : String).data) ∧
    (threadKeyStore "CA11" "1.0" = "slack:thread:" ++ "CA11" ++ ":" ++ "1.0" ∧
      threadKeyGet "CA11" "1.0" = threadKeyStore "CA11" "1.0" ∧
      threadKeyAdd "CA11" "1.0" = threadKeyStore "CA11" "1.0" ∧
      (threadKeyStore "CA11" "1.0" = threadKeyStore "CB22" "2.0" →
        "CA11" = "CB22" ∧ "1.0" = "2.0")) :=
  ⟨by decide, by decide,
    C8_theorem "CA11" "1.0" "CB22" "2.0" (by decide) (by decide)⟩

/-- C1 counterexample: `batchRead` does not chunk — for the 120-id input of
the spec scenario it issues 1 upstream call, not `ceil(120/50) = 3`. -/
theorem C1_counterexample :
    ids120.length = 120 ∧
    (batchRead echoUpstream ids120).1.length ≠ (ids120.length + 50 - 1) / 50 := by
  constructor
  · decide
  · decide

/-- C1 (amended): `batchRead(kind, ids, fields)` issues no upstream call on
empty `ids` and exactly one call otherwise, carrying only `ids.slice(0, 50)`
— ids beyond the first 50 are silently dropped rather than chunked into
further calls. Assuming the upstream batch endpoint returns a sub-multiset of
the requested ids (batch read returns each found record once), the result has
length at most `min(n, 50) ≤ n` and its id multiset is contained in the first
50 input ids (those ids minus not-found records). -/
theorem C1_theorem (u : BatchUpstream) (ids : List String)
    (hu : ∀ req : List String,
      (((u.fetch req).map CrmRecord.id : Multiset String) ≤ (req : Multiset String))) :
    (batchRead u ids).1.length = (if ids.isEmpty then 0 else 1) ∧
    (batchRead u ids).2.length ≤ min ids.length 50 ∧
    (((batchRead u ids).2.map CrmRecord.id : Multiset String)
      ≤ (ids.take 50 : Multiset String)) := by
  by_cases h : ids.isEmpty
  · refine ⟨by simp [batchRead, h], by simp [batchRead, h], ?_⟩
    simp [batchRead, h]
  · have h50 := hu (ids.take 50)
    refine ⟨by simp [batchRead, h], ?_, ?_⟩
    · have hcard := Multiset.card_le_card h50
      simp only [Multiset.coe_card, List.length_map, List.length_take] at hcard
      simp only [batchRead, if_neg h, List.length_take] at hcard ⊢
      omega
    · simpa [batchRead, h] using h50

/-- C1 witness: the echo upstream on the concrete 120-id list. -/
theorem C1_witness :
    (∀ req : List String,
      (((echoUpstream.fetch req).map CrmRecord.id : Multiset String)
        ≤ (req : Multiset String))) ∧
    ((batchRead echoUpstream ids120).1.length
        = (if ids120.isEmpty then 0 else 1) ∧
      (batchRead echoUpstream ids120).2.length ≤ min ids120.length 50 ∧
      (((batchRead echoUpstream ids120).2.map CrmRecord.id : Multiset String)
        ≤ (ids120.take 50 : Multiset String))) :=
  ⟨fun req => le_of_eq (by
      simp only [echoUpstream, List.map_map]
      rw [show (CrmRecord.id ∘ fun i => ({ id := i } : CrmRecord)) = fun i => i
        from rfl, List.map_id']),
    C1_theorem echoUpstream ids120
      (fun req => le_of_eq (by
        simp only [echoUpstream, List.map_map]
        rw [show (CrmRecord.id ∘ fun i => ({ id := i } : CrmRecord)) = fun i => i
          from rfl, List.map_id']))⟩

/-- C6: for every non-empty deal search result list, `findBestDeal` selects a
candidate whose close-date key (`Number(new Date(closedate))`, `0` when the
close date is missing, so a missing close date ranks oldest among real dates)
is maximal over all candidates. -/
theorem C6_theorem (env : JsDateEnv) (results : List Deal)
    (h : results ≠ []) :
    ∃ d, findBestDeal env results = some d ∧ d ∈ results ∧
      ∀ d2 ∈ results, closeKey env d2 ≤ closeKey env d := by
  have hne : ¬(results.isEmpty = true) := by
    simpa [List.isEmpty_iff] using h
  obtain ⟨b, t, hbt⟩ : ∃ b t, sortDesc (closeKey env) results = b :: t := by
    cases hs : sortDesc (closeKey env) results with
    | nil =>
      exfalso
      have hp := sortDesc_perm (closeKey env) results
      rw [hs] at hp
      exact h hp.symm.eq_nil
    | cons b t => exact ⟨b, t, rfl⟩
  have hp := sortDesc_perm (closeKey env) results
  rw [hbt] at hp
  have hsorted := sortDesc_sorted (closeKey env) results
  rw [hbt] at hsorted
  refine ⟨b, ?_, hp.subset (List.mem_cons_self b t), ?_⟩
  · rw [findBestDeal, if_neg hne, hbt]
    rfl
  · intro d2 hd2
    rcases List.mem_cons.mp (hp.symm.subset hd2) with rfl | hmem
    · exact le_refl _
    · exact (List.pairwise_cons.mp hsorted).1 d2 hmem

/-- C6 witness: the spec scenario — close dates 2024-01-01 and 2024-03-15;
the March candidate is selected. -/
theorem C6_witness :
    ([dealJan, dealMar] ≠ ([] : List Deal)) ∧
    (∃ d, findBestDeal envClose [dealJan, dealMar] = some d ∧
      d ∈ [dealJan, dealMar] ∧
      ∀ d2 ∈ [dealJan, dealMar], closeKey envClose d2 ≤ closeKey envClose d) ∧
    findBestDeal envClose [dealJan, dealMar] = some dealMar :=
  ⟨by decide, C6_theorem envClose [dealJan, dealMar] (by decide), by decide⟩

/-- C3 counterexample: `merge` output is not invariant under permutation of
the input records — the sort is stable, so two records with equal timestamps
keep their input order, and swapping them swaps their rendered lines. -/
theorem C3_counterexample :
    formatTimelineForPrompt envNum (some [emailTieA, emailTieB]) none none none
      ≠ formatTimelineForPrompt envNum (some [emailTieB, emailTieA]) none none
        none := by
  decide

/-- C3 (amended): `merge` output is always a stable-sorted sequence,
non-increasing in the parsed timestamp, truncated to the 40 most recent
items; and it is invariant under permutations of the records within the
input collections provided all parsed timestamps are pairwise distinct
(ties instead keep input order, as the counterexample shows). -/
theorem C3_theorem (env : JsDateEnv)
    (e e2 : Option (List Email)) (c c2 : Option (List Call))
    (m m2 : Option (List Meeting)) (n n2 : Option (List Note))
    (he : (jsArr e).Perm (jsArr e2)) (hc : (jsArr c).Perm (jsArr c2))
    (hm : (jsArr m).Perm (jsArr m2)) (hn : (jsArr n).Perm (jsArr n2))
    (hnd : ((timelineItems env e c m n).map (itemKey env)).Nodup) :
    List.Pairwise (fun a b => itemKey env b ≤ itemKey env a)
      (sortedTimeline env e c m n) ∧
    formatTimelineForPrompt env e c m n
      = formatTimelineForPrompt env e2 c2 m2 n2 := by
  have hperm : (timelineItems env e c m n).Perm (timelineItems env e2 c2 m2 n2) :=
    (((he.map (renderEmail env)).append (hc.map (renderCall env))).append
      (hm.map (renderMeeting env))).append (hn.map (renderNote env))
  refine ⟨sortDesc_sorted _ _, ?_⟩
  by_cases hnil : timelineItems env e c m n = []
  · have hnil2 : timelineItems env e2 c2 m2 n2 = [] := by
      rw [hnil] at hperm
      exact hperm.symm.eq_nil
    simp [formatTimelineForPrompt, hnil, hnil2]
  · have hnil2 : timelineItems env e2 c2 m2 n2 ≠ [] := by
      intro hh
      rw [hh] at hperm
      exact hnil hperm.eq_nil
    have hsort := sortDesc_eq_of_perm (itemKey env) hperm hnd
    simp only [formatTimelineForPrompt, sortedTimeline]
    rw [hsort, if_neg (by simpa [List.isEmpty_iff] using hnil),
      if_neg (by simpa [List.isEmpty_iff] using hnil2)]

/-- C3 witness: two emails with distinct timestamps, fed in either order. -/
theorem C3_witness :
    (jsArr (some [emailW1, emailW2])).Perm (jsArr (some [emailW2, emailW1])) ∧
    (jsArr (none : Option (List Call))).Perm (jsArr none) ∧
    (jsArr (none : Option (List Meeting))).Perm (jsArr none) ∧
    (jsArr (none : Option (List Note))).Perm (jsArr none) ∧
    ((timelineItems envNum (some [emailW1, emailW2]) none none none).map
      (itemKey envNum)).Nodup ∧
    (List.Pairwise (fun a b => itemKey envNum b ≤ itemKey envNum a)
        (sortedTimeline envNum (some [emailW1, emailW2]) none none none) ∧
      formatTimelineForPrompt envNum (some [emailW1, emailW2]) none none none
        = formatTimelineForPrompt envNum (some [emailW2, emailW1]) none none
          none) :=
  ⟨by decide, by decide, by decide, by decide, by decide,
    C3_theorem envNum (some [emailW1, emailW2]) (some [emailW2, emailW1])
      none none none none none none
      (by decide) (by decide) (by decide) (by decide) (by decide)⟩

/-- C4 counterexample: the claim reads "missing timestamp sorts as epoch 0,
i.e., oldest: it is placed after every record whose timestamp is strictly
later than the Unix epoch". The code tags a missing timestamp with the
literal string `"0"` and keys it by `Number(new Date(timestamp))`, and in
the actual JS runtime `new Date("0")` parses (two-digit-year windowing) to
2000-01-01T00:00:00Z: under that parse (`env2000`) the missing-timestamp
record occupies index 0 of the sorted timeline while a 1999 record — whose
timestamp is strictly later than the epoch — occupies index 1, i.e. the
missing record is placed before it, not after. -/
theorem C4_counterexample :
    env2000.dateMs "0" = 946684800000 ∧
    (0 : Int) < env2000.dateMs "1999-06-01" ∧
    (sortedTimeline env2000 (some [emailNoTs]) none none
      (some [note1999])).length = 2 ∧
    ((sortedTimeline env2000 (some [emailNoTs]) none none
      (some [note1999])).getD 0 default).timestamp = "0" ∧
    (0 : Int) < env2000.dateMs
      (((sortedTimeline env2000 (some [emailNoTs]) none none
        (some [note1999])).getD 1 default).timestamp) :=
  ⟨by decide, by decide, by decide, by decide, by decide⟩

/-- C4 (amended): in `merge`, an activity record with a missing timestamp is
tagged with the literal string `"0"` and sorts by the parse
`Number(new Date("0"))` — not by epoch 0 (the actual runtime parses `"0"` to
2000-01-01): in the sorted timeline it is placed after exactly those records
whose parsed timestamp is strictly later than the parse of `"0"`; records
dated between the epoch and that parse sort below it. -/
theorem C4_theorem (env : JsDateEnv) (e : Option (List Email))
    (c : Option (List Call)) (m : Option (List Meeting))
    (n : Option (List Note)) (i j : Nat)
    (hi : i < (sortedTimeline env e c m n).length)
    (hj : j < (sortedTimeline env e c m n).length)
    (hts : ((sortedTimeline env e c m n).getD i default).timestamp = "0")
    (hgt : env.dateMs "0" < env.dateMs
      (((sortedTimeline env e c m n).getD j default).timestamp)) :
    j < i := by
  have hsorted : List.Pairwise (fun a b => itemKey env b ≤ itemKey env a)
      (sortedTimeline env e c m n) := sortDesc_sorted _ _
  by_contra hcon
  push_neg at hcon
  rcases Nat.eq_or_lt_of_le hcon with heq | hlt
  · rw [← heq, hts] at hgt
    exact lt_irrefl _ hgt
  · have hrel := (List.pairwise_iff_getElem.mp hsorted) i j hi hj hlt
    rw [List.getD_eq_getElem _ _ hi] at hts
    rw [List.getD_eq_getElem _ _ hj] at hgt
    simp only [itemKey] at hrel
    rw [hts] at hrel
    exact absurd (lt_of_lt_of_le hgt hrel) (lt_irrefl _)

/-- C4 witness: under the actual-runtime parse `env2000`, a timestamp-less
email lands strictly after a 2024 note (whose parse exceeds that of `"0"`)
in the sorted timeline. -/
theorem C4_witness :
    1 < (sortedTimeline env2000 (some [emailNoTs]) none none
      (some [note2024])).length ∧
    0 < (sortedTimeline env2000 (some [emailNoTs]) none none
      (some [note2024])).length ∧
    ((sortedTimeline env2000 (some [emailNoTs]) none none
      (some [note2024])).getD 1 default).timestamp = "0" ∧
    env2000.dateMs "0" < env2000.dateMs
      (((sortedTimeline env2000 (some [emailNoTs]) none none
        (some [note2024])).getD 0 default).timestamp) ∧
    0 < 1 :=
  ⟨by decide, by decide, by decide, by decide,
    C4_theorem env2000 (some [emailNoTs]) none none (some [note2024]) 1 0
      (by decide) (by decide) (by decide) (by decide)⟩

/-- C5: `merge` with all-null or all-empty input collections returns the
literal no-activity sentinel, and for every input the result has positive
length — `merge` never returns the empty string. -/
theorem C5_theorem (env : JsDateEnv) :
    formatTimelineForPrompt env none none none none
      = "No activity found in HubSpot." ∧
    formatTimelineForPrompt env (some []) (some []) (some []) (some [])
      = "No activity found in HubSpot." ∧
    ∀ (e : Option (List Email)) (c : Option (List Call))
      (m : Option (List Meeting)) (n : Option (List Note)),
      0 < (formatTimelineForPrompt env e c m n).length := by
  refine ⟨rfl, rfl, ?_⟩
  intro e c m n
  by_cases hemp : (timelineItems env e c m n).isEmpty = true
  · simp only [formatTimelineForPrompt, hemp, if_true]
    decide
  · have hne : timelineItems env e c m n ≠ [] := by
      simpa [List.isEmpty_iff] using hemp
    have hp := sortDesc_perm (itemKey env) (timelineItems env e c m n)
    have hsne : sortedTimeline env e c m n ≠ [] := by
      intro hh
      rw [show sortDesc (itemKey env) (timelineItems env e c m n)
        = sortedTimeline env e c m n from rfl, hh] at hp
      exact hne hp.symm.eq_nil
    obtain ⟨y, ys, hys⟩ := List.exists_cons_of_ne_nil hsne
    have hmem : y ∈ timelineItems env e c m n := by
      apply hp.subset
      show y ∈ sortedTimeline env e c m n
      rw [hys]
      exact List.mem_cons_self y ys
    have hposy := timelineItems_line_pos env e c m n y hmem
    simp only [formatTimelineForPrompt]
    rw [if_neg hemp, hys, show (40 : Nat) = 39 + 1 from rfl,
      List.take_succ_cons, List.map_cons]
    exact lt_of_lt_of_le hposy (jsJoin_length_le "\n" y.line _)

end DealBot
